import Mathlib

/-!
# Verification of the akc-node-sdk query service

A shallow embedding of the repository's two source files
(`lib/query/query-service.js`, here `src/unnamed/part_000`, and
`lib/utils/common.js`) together with proofs about the claims of the
specification: block-header hashing (`_generateBlockHash`), block crawling
(`crawlBlock`), chaincode-query response normalization (`queryChaincode`),
the ledger-inspection queries (`getBlockByNumber`), and the session cache
(`getClientForOrg` / `getChannel`).

Modelling conventions:
* JavaScript exceptions are modelled with `Except JsError`; an `async`
  function that would reject its promise is modelled as returning
  `Except.error`.
* The code runs in strict mode (`'use strict'` plus class bodies), so
  evaluating an identifier that is resolvable in no enclosing scope raises
  `ReferenceError`.  Scope membership is modelled explicitly where the
  source refers to identifiers that are not in scope.
* External collaborators (the fabric network client, `JSON.parse`,
  `util.format`, the `asn1.js` DER encoder and the SHA-256 library) are
  modelled by their documented standard behaviour; network call results are
  supplied as environment values.
* JSON values are modelled by `Json` (arrays and objects as cons chains);
  numeric literals are modelled as integers, which covers every value the
  sources inspect (`status` codes).
-/

/-- JavaScript exception values, carrying only what the sources observe
(the class of the error and its message text). -/
inductive JsError where
  | referenceError (name : String) : JsError
  | typeError (msg : String) : JsError
  | jsonParseError (msg : String) : JsError
  | error (msg : String) : JsError
deriving DecidableEq, Repr

/-- `Error.prototype.toString` as the sources use it (`error.toString()`). -/
def jsErrToString : JsError → String
  | .referenceError n => "ReferenceError: " ++ n ++ " is not defined"
  | .typeError m => "TypeError: " ++ m
  | .jsonParseError m => "SyntaxError: " ++ m
  | .error m => "Error: " ++ m

/-- JSON values (results of `JSON.parse`).  Arrays are `arrNil`/`arrCons`
chains and objects are `objNil`/`objCons` chains so that equality is
decidable by derivation; numbers are modelled as integers. -/
inductive Json where
  | null : Json
  | boolJ (b : Bool) : Json
  | num (n : Int) : Json
  | str (s : String) : Json
  | arrNil : Json
  | arrCons (hd tl : Json) : Json
  | objNil : Json
  | objCons (key : String) (val tail : Json) : Json
deriving DecidableEq, Repr, Inhabited

/-- Property lookup inside a JSON object chain (first binding wins, as in
an object literal produced by `JSON.parse`). -/
def Json.getField : Json → String → Option Json
  | .objCons k v rest, f => if k = f then some v else rest.getField f
  | _, _ => none

/-- JavaScript member access `x.f` on a parsed JSON value: `null.f` raises
`TypeError`; on primitives and arrays the result is `undefined` (`none`);
on objects it is the bound value or `undefined`. -/
def jsMember (v : Json) (f : String) : Except JsError (Option Json) :=
  match v with
  | .null => .error (.typeError ("Cannot read properties of null reading " ++ f))
  | .objCons k w rest => .ok ((Json.objCons k w rest).getField f)
  | .objNil => .ok none
  | _ => .ok none

/- ## A small JSON parser (the `JSON.parse` collaborator)

Recursive-descent over the character list with explicit fuel.  It accepts
the JSON subset the sources can meet on this wire (strings with the
common escapes, integral numbers, booleans, `null`, arrays, objects) and
fails (`none`) elsewhere — `JSON.parse` failure is what the sources turn
into control flow. -/

def quoteChar : Char := Char.ofNat 34

def backslashChar : Char := Char.ofNat 92

def lbraceChar : Char := Char.ofNat 123

def rbraceChar : Char := Char.ofNat 125

def isWsChar (c : Char) : Bool :=
  c = ' ' || c = Char.ofNat 9 || c = Char.ofNat 10 || c = Char.ofNat 13

def skipWs : List Char → List Char
  | [] => []
  | c :: cs => if isWsChar c then skipWs cs else c :: cs

/-- Unescape and read a JSON string body after the opening quote; returns
the string and the rest after the closing quote. -/
def parseStringBody : List Char → Option (List Char × List Char)
  | [] => none
  | c :: cs =>
    if c = quoteChar then some ([], cs)
    else if c = backslashChar then
      match cs with
      | [] => none
      | e :: cs2 =>
        let esc : Option Char :=
          if e = quoteChar then some quoteChar
          else if e = backslashChar then some backslashChar
          else if e = '/' then some '/'
          else if e = 'n' then some (Char.ofNat 10)
          else if e = 't' then some (Char.ofNat 9)
          else if e = 'r' then some (Char.ofNat 13)
          else if e = 'b' then some (Char.ofNat 8)
          else if e = 'f' then some (Char.ofNat 12)
          else none
        match esc with
        | none => none
        | some ch =>
          match parseStringBody cs2 with
          | some (body, rest) => some (ch :: body, rest)
          | none => none
    else
      match parseStringBody cs with
      | some (body, rest) => some (c :: body, rest)
      | none => none

def digitVal? (c : Char) : Option Nat :=
  if '0' ≤ c ∧ c ≤ '9' then some (c.toNat - '0'.toNat) else none

def parseDigits (acc : Nat) : List Char → Nat × List Char
  | [] => (acc, [])
  | c :: cs =>
    match digitVal? c with
    | some d => parseDigits (acc * 10 + d) cs
    | none => (acc, c :: cs)

def startsDigit : List Char → Bool
  | [] => false
  | c :: _ => (digitVal? c).isSome

mutual

/-- Parse one JSON value from the character stream. -/
def parseJsonVal : Nat → List Char → Option (Json × List Char)
  | 0, _ => none
  | fuel + 1, cs0 =>
    match skipWs cs0 with
    | [] => none
    | c :: cs =>
      if c = quoteChar then
        match parseStringBody cs with
        | some (body, rest) => some (.str (String.mk body), rest)
        | none => none
      else if c = lbraceChar then parseJsonObj fuel (skipWs cs) true
      else if c = '[' then parseJsonArr fuel (skipWs cs) true
      else if c = 't' then
        match cs with
        | 'r' :: 'u' :: 'e' :: rest => some (.boolJ true, rest)
        | _ => none
      else if c = 'f' then
        match cs with
        | 'a' :: 'l' :: 's' :: 'e' :: rest => some (.boolJ false, rest)
        | _ => none
      else if c = 'n' then
        match cs with
        | 'u' :: 'l' :: 'l' :: rest => some (.null, rest)
        | _ => none
      else if c = '-' then
        if startsDigit cs then
          let (v, rest) := parseDigits 0 cs
          some (.num (-(v : Int)), rest)
        else none
      else if (digitVal? c).isSome then
        let (v, rest) := parseDigits 0 (c :: cs)
        some (.num (v : Int), rest)
      else none

/-- Parse the members of an object after the opening brace (`first` marks
that no member has been read yet, so a closing brace is accepted). -/
def parseJsonObj : Nat → List Char → Bool → Option (Json × List Char)
  | 0, _, _ => none
  | fuel + 1, cs0, first =>
    match cs0 with
    | [] => none
    | c :: cs =>
      if c = rbraceChar ∧ first then some (.objNil, cs)
      else if c = quoteChar then
        match parseStringBody cs with
        | none => none
        | some (key, afterKey) =>
          match skipWs afterKey with
          | ':' :: afterColon =>
            match parseJsonVal fuel afterColon with
            | none => none
            | some (v, afterVal) =>
              match skipWs afterVal with
              | ',' :: afterComma =>
                match parseJsonObj fuel (skipWs afterComma) false with
                | some (rest, tail) => some (.objCons (String.mk key) v rest, tail)
                | none => none
              | d :: afterBrace =>
                if d = rbraceChar then some (.objCons (String.mk key) v .objNil, afterBrace)
                else none
              | [] => none
          | _ => none
      else none

/-- Parse the elements of an array after the opening bracket. -/
def parseJsonArr : Nat → List Char → Bool → Option (Json × List Char)
  | 0, _, _ => none
  | fuel + 1, cs0, first =>
    match cs0 with
    | [] => none
    | c :: cs =>
      if c = ']' ∧ first then some (.arrNil, cs)
      else
        match parseJsonVal fuel (c :: cs) with
        | none => none
        | some (v, afterVal) =>
          match skipWs afterVal with
          | ',' :: afterComma =>
            match parseJsonArr fuel (skipWs afterComma) false with
            | some (rest, tail) => some (.arrCons v rest, tail)
            | none => none
          | ']' :: afterBracket => some (.arrCons v .arrNil, afterBracket)
          | _ => none

end

/-- `JSON.parse`: one value, nothing but whitespace after it. -/
def Json.parse (s : String) : Option Json :=
  match parseJsonVal (s.length + 1) s.data with
  | some (v, rest) => if skipWs rest = [] then some v else none
  | none => none

/- ## Byte-level helpers -/

/-- Minimal big-endian byte representation of a natural number (`[]` for 0). -/
def natToBE (n : Nat) : List Nat :=
  if n = 0 then [] else natToBE (n / 256) ++ [n % 256]
decreasing_by exact Nat.div_lt_self (Nat.pos_of_ne_zero (by assumption)) (by omega)

/-- Value of a big-endian byte list. -/
def beVal (bs : List Nat) : Nat := bs.foldl (fun a b => a * 256 + b) 0

/-- `Buffer.from(s, 'hex')`: decode pairs of hex digits, stopping at the
first character that is not a hex digit (and dropping an odd trailing
digit), exactly as Node's hex decoder truncates. -/
def hexDigitVal? (c : Char) : Option Nat :=
  if '0' ≤ c ∧ c ≤ '9' then some (c.toNat - '0'.toNat)
  else if 'a' ≤ c ∧ c ≤ 'f' then some (c.toNat - 'a'.toNat + 10)
  else if 'A' ≤ c ∧ c ≤ 'F' then some (c.toNat - 'A'.toNat + 10)
  else none

def hexDecodeAux : List Char → List Nat
  | c1 :: c2 :: rest =>
    match hexDigitVal? c1, hexDigitVal? c2 with
    | some a, some b => (a * 16 + b) :: hexDecodeAux rest
    | _, _ => []
  | _ => []

def hexDecode (s : String) : List Nat := hexDecodeAux s.data

/- ## SHA-256 (the `sha.sha256` collaborator)

The full FIPS 180-4 algorithm over byte lists, with 32-bit words as
naturals reduced modulo `2 ^ 32`. -/

def w32 (n : Nat) : Nat := n % 4294967296

def rotr32 (k x : Nat) : Nat := w32 ((x >>> k) ||| (x <<< (32 - k)))

def shaCh (x y z : Nat) : Nat := (x &&& y) ^^^ ((x ^^^ 4294967295) &&& z)

def shaMaj (x y z : Nat) : Nat := (x &&& y) ^^^ (x &&& z) ^^^ (y &&& z)

def bigSigma0 (x : Nat) : Nat := rotr32 2 x ^^^ rotr32 13 x ^^^ rotr32 22 x

def bigSigma1 (x : Nat) : Nat := rotr32 6 x ^^^ rotr32 11 x ^^^ rotr32 25 x

def smallSigma0 (x : Nat) : Nat := rotr32 7 x ^^^ rotr32 18 x ^^^ (x >>> 3)

def smallSigma1 (x : Nat) : Nat := rotr32 17 x ^^^ rotr32 19 x ^^^ (x >>> 10)

def shaK : List Nat :=
  [1116352408, 1899447441, 3049323471, 3921009573, 961987163,
   1508970993, 2453635748, 2870763221, 3624381080, 310598401,
   607225278, 1426881987, 1925078388, 2162078206, 2614888103,
   3248222580, 3835390401, 4022224774, 264347078, 604807628,
   770255983, 1249150122, 1555081692, 1996064986, 2554220882,
   2821834349, 2952996808, 3210313671, 3336571891, 3584528711,
   113926993, 338241895, 666307205, 773529912, 1294757372,
   1396182291, 1695183700, 1986661051, 2177026350, 2456956037,
   2730485921, 2820302411, 3259730800, 3345764771, 3516065817,
   3600352804, 4094571909, 275423344, 430227734, 506948616,
   659060556, 883997877, 958139571, 1322822218, 1537002063,
   1747873779, 1955562222, 2024104815, 2227730452, 2361852424,
   2428436474, 2756734187, 3204031479, 3329325298]

def shaH0 : List Nat :=
  [1779033703, 3144134277, 1013904242, 2773480762, 1359893119,
   2600822924, 528734635, 1541459225]

/-- Big-endian 8-byte encoding of the bit length. -/
def natToBytesBE8 (n : Nat) : List Nat :=
  [n / 2 ^ 56 % 256, n / 2 ^ 48 % 256, n / 2 ^ 40 % 256, n / 2 ^ 32 % 256,
   n / 2 ^ 24 % 256, n / 2 ^ 16 % 256, n / 2 ^ 8 % 256, n % 256]

def sha256pad (msg : List Nat) : List Nat :=
  let len := msg.length
  let zeros := (64 - (len + 9) % 64) % 64
  msg ++ 128 :: List.replicate zeros 0 ++ natToBytesBE8 (len * 8)

def chunks64 (l : List Nat) : List (List Nat) :=
  if l = [] then [] else l.take 64 :: chunks64 (l.drop 64)
termination_by l.length
decreasing_by
  rename_i h
  have : l.length ≠ 0 := fun hl => h (List.eq_nil_of_length_eq_zero hl)
  simp only [List.length_drop]
  omega

def bytesToWords32 : List Nat → List Nat
  | b0 :: b1 :: b2 :: b3 :: rest => (((b0 * 256 + b1) * 256 + b2) * 256 + b3) :: bytesToWords32 rest
  | _ => []

/-- Extend the 16 message words to the 64-word schedule. -/
def extendW (ws : List Nat) : List Nat :=
  (List.range 48).foldl
    (fun w _ =>
      w ++ [w32 (smallSigma1 (w.getD (w.length - 2) 0) + w.getD (w.length - 7) 0 +
                 smallSigma0 (w.getD (w.length - 15) 0) + w.getD (w.length - 16) 0)])
    ws

structure Hash8 where
  a : Nat
  b : Nat
  c : Nat
  d : Nat
  e : Nat
  f : Nat
  g : Nat
  h : Nat

def compressStep (st : Hash8) (kw : Nat × Nat) : Hash8 :=
  let t1 := w32 (st.h + bigSigma1 st.e + shaCh st.e st.f st.g + kw.1 + kw.2)
  let t2 := w32 (bigSigma0 st.a + shaMaj st.a st.b st.c)
  { a := w32 (t1 + t2), b := st.a, c := st.b, d := st.c,
    e := w32 (st.d + t1), f := st.e, g := st.f, h := st.g }

def compressBlock (hs : List Nat) (chunk : List Nat) : List Nat :=
  let ws := extendW (bytesToWords32 chunk)
  let init : Hash8 :=
    { a := hs.getD 0 0, b := hs.getD 1 0, c := hs.getD 2 0, d := hs.getD 3 0,
      e := hs.getD 4 0, f := hs.getD 5 0, g := hs.getD 6 0, h := hs.getD 7 0 }
  let fin := (shaK.zip ws).foldl compressStep init
  [w32 (hs.getD 0 0 + fin.a), w32 (hs.getD 1 0 + fin.b), w32 (hs.getD 2 0 + fin.c),
   w32 (hs.getD 3 0 + fin.d), w32 (hs.getD 4 0 + fin.e), w32 (hs.getD 5 0 + fin.f),
   w32 (hs.getD 6 0 + fin.g), w32 (hs.getD 7 0 + fin.h)]

def wordToBytesBE4 (w : Nat) : List Nat :=
  [w / 2 ^ 24 % 256, w / 2 ^ 16 % 256, w / 2 ^ 8 % 256, w % 256]

/-- SHA-256 of a byte list, as the `sha.sha256` library computes it. -/
def sha256 (msg : List Nat) : List Nat :=
  let hs := (chunks64 (sha256pad msg)).foldl compressBlock shaH0
  hs.foldr (fun w acc => wordToBytesBE4 w ++ acc) []

/- ## ASN.1 DER encoding (the `asn1.js` collaborator)

`_generateBlockHash` (part_000 lines 304-320) defines the schema
`seq { Number: int, PreviousHash: octstr, DataHash: octstr }` and encodes
it with `'der'`.  DER: each value is tag, length, contents; lengths below
128 in one byte, otherwise long form; integers minimal two's complement
(the header number is non-negative, so a leading zero byte is added when
the high bit of the leading content byte is set). -/

def lenEncode (n : Nat) : List Nat :=
  if n < 128 then [n] else (128 + (natToBE n).length) :: natToBE n

def derTLV (tag : Nat) (content : List Nat) : List Nat :=
  tag :: lenEncode content.length ++ content

/-- Content bytes of the DER `INTEGER` of a non-negative number: minimal
big-endian, a single zero byte for zero, a leading zero byte when the high
bit of the leading byte is set. -/
def derIntBody (n : Nat) : List Nat :=
  if natToBE n = [] then [0]
  else if 128 ≤ (natToBE n).headD 0 then 0 :: natToBE n
  else natToBE n

/-- DER `INTEGER` of a non-negative number. -/
def derInt (n : Nat) : List Nat :=
  derTLV 2 (derIntBody n)

/-- DER `OCTET STRING`. -/
def derOctStr (s : List Nat) : List Nat := derTLV 4 s

/-- DER `SEQUENCE` (constructed, tag `0x30`). -/
def derSeq (content : List Nat) : List Nat := derTLV 48 content

/-- Raw block header as the network hands it to `_generateBlockHash`:
`number` is numeric (the source's `parseInt(header.number)` maps its
decimal form to this value) and the two hashes are hex strings that the
source feeds through `Buffer.from(·, 'hex')`. -/
structure RawHeader where
  number : Nat
  previous_hash : String
  data_hash : String
deriving DecidableEq, Repr

/-- The DER encoding of a header performed inside `_generateBlockHash`
(part_000 lines 305-318): the sequence of `Number`, `PreviousHash`,
`DataHash`, in that order. -/
def headerAsnEncode (h : RawHeader) : List Nat :=
  derSeq (derInt h.number ++ derOctStr (hexDecode h.previous_hash) ++
          derOctStr (hexDecode h.data_hash))

/-- `_generateBlockHash` (part_000 lines 304-320): SHA-256 of the DER
encoding of the header fields. -/
def _generateBlockHash (h : RawHeader) : List Nat :=
  sha256 (headerAsnEncode h)

/- ## A standard DER decoder (for the round-trip property) -/

/-- Read one DER length: short form below 128, otherwise the count of
big-endian length bytes. -/
def readLen : List Nat → Option (Nat × List Nat)
  | [] => none
  | b :: rest =>
    if b < 128 then some (b, rest)
    else
      let k := b - 128
      if k = 0 then none
      else if k ≤ rest.length then some (beVal (rest.take k), rest.drop k) else none

/-- Read one TLV with the expected tag, returning contents and remainder. -/
def readTLV (tag : Nat) : List Nat → Option (List Nat × List Nat)
  | [] => none
  | t :: rest =>
    if t = tag then
      match readLen rest with
      | some (len, r2) => if len ≤ r2.length then some (r2.take len, r2.drop len) else none
      | none => none
    else none

/-- Decode a DER `INTEGER` content as a non-negative number (leading bit
clear; the encodings produced for block numbers are always of this form). -/
def decodeDerInt (bs : List Nat) : Option Nat :=
  match bs with
  | [] => none
  | b :: _ => if b < 128 then some (beVal bs) else none

/-- Decode the header sequence produced by `headerAsnEncode` with a plain
DER decoder: a `SEQUENCE` of one `INTEGER` and two `OCTET STRING`s,
consuming the input exactly. -/
def decodeHeaderDer (bs : List Nat) : Option (Nat × List Nat × List Nat) :=
  match readTLV 48 bs with
  | none => none
  | some (content, rest0) =>
    if rest0 = [] then
      match readTLV 2 content with
      | none => none
      | some (ib, r1) =>
        match readTLV 4 r1 with
        | none => none
        | some (pb, r2) =>
          match readTLV 4 r2 with
          | none => none
          | some (db, r3) =>
            if r3 = [] then
              match decodeDerInt ib with
              | some n => some (n, pb, db)
              | none => none
            else none
    else none

/- ## QueryResult and the response normalizer (`queryChaincode`) -/

/-- The uniform result tuple.  Fields are JavaScript values: `none` is
`undefined` (possible when a peer-supplied nested error object lacks a
field), `some (Json.str s)` a string, `some (Json.num n)` a number. -/
structure QueryResult where
  statusCode : Option Json
  payload : Option Json
  message : Option Json
  detail : Option Json
deriving DecidableEq, Repr

/-- Modelled from the spec: `common.createReturn` is called throughout
part_000 but the provided `lib/utils/common.js` does not contain it (only
its callers are in src/).  Per the spec's data model, a `QueryResult` is
the plain four-field tuple `(statusCode, payload, message, detail)`, so
`createReturn` builds exactly that record from its four arguments. -/
def createReturn (statusCode payload message detail : Option Json) : QueryResult :=
  ⟨statusCode, payload, message, detail⟩

/-- A per-endorser `response` object as probed by part_000 line 72:
`status` is whatever the peer sent; `payload` is `some s` when a Buffer is
present (`s` its UTF-8 decoding; Buffers are truthy even when empty) and
`none` when the field is absent or falsy. -/
structure RespVal where
  status : Option Json
  payload : Option String
deriving DecidableEq, Repr

/-- The first entry of the endorsement response array:
an `Error` instance (only its `message` is consumed, via the
`JSON.stringify`/`JSON.parse` round trip of lines 62-63 that preserves it),
or a plain truthy value whose `response` member may be absent/falsy. -/
inductive EndorserEntry where
  | errorInstance (message : String) : EndorserEntry
  | plainEntry (response : Option RespVal) : EndorserEntry
deriving DecidableEq, Repr

/-- `proposalResults[0]` as probed by part_000 line 55: either not an
array (or absent), or an array whose first element is `first`
(`none` both for an empty array and for a falsy first element, which line
59 treats alike). -/
inductive ProposalResponses where
  | notArray : ProposalResponses
  | respArray (first : Option EndorserEntry) : ProposalResponses
deriving DecidableEq, Repr

/-- Environment of one `queryChaincode` call: outcomes of the session
resolution and of the network proposal (each may raise). -/
structure QCEnv where
  clientResult : Except JsError Unit
  channelResult : Except JsError (Option Unit)
  proposalResult : Except JsError ProposalResponses
  channelName : String

/-- Lines 64-67: the inner `try` block.  `JSON.parse(objErr.message)`
either raises `SyntaxError` or yields `convertObj`, whose `status` and
`msg` members are then read (a `TypeError` if `convertObj` is `null`). -/
def handleErrorEntryTry (message : String) : Except JsError QueryResult := do
  match Json.parse message with
  | none => throw (.jsonParseError "Unexpected token in JSON")
  | some convertObj => do
    let st ← jsMember convertObj "status"
    let ms ← jsMember convertObj "msg"
    pure (createReturn st (some (.str "")) ms ms)

/-- Lines 60-71: an `Error` first entry.  On any exception from the inner
`try`, the inner `catch` (line 68, binding `err`) evaluates `convertObj`,
which is block-scoped to the inner `try` block and hence unresolvable
there: in strict mode this raises `ReferenceError: convertObj is not
defined` out of the normalization step. -/
def handleErrorEntry (message : String) : Except JsError QueryResult :=
  match handleErrorEntryTry message with
  | .ok r => .ok r
  | .error _ => .error (.referenceError "convertObj")

/-- Lines 72-80: a first entry with a truthy `response.payload`.  The
payload text is parsed as JSON, falling back to the raw text. -/
def respPathResult (status : Option Json) (text : String) : QueryResult :=
  let p := match Json.parse text with
    | some j => j
    | none => Json.str text
  createReturn status (some p) (some (.str "Success")) (some (.str "Success"))

/-- The `try` block of `queryChaincode` (part_000 lines 31-89). -/
def queryChaincodeTry (env : QCEnv) : Except JsError QueryResult := do
  let _ ← env.clientResult
  let chan ← env.channelResult
  match chan with
  | none =>
    let m := "Channel " ++ env.channelName ++ " was not defined in the connection profile"
    pure (createReturn (some (.num 202)) (some (.str "")) (some (.str m)) (some (.str m)))
  | some _ => do
    let responses ← env.proposalResult
    match responses with
    | .notArray =>
      pure (createReturn (some (.num 202)) (some (.str ""))
        (some (.str "Payload results are missing from the chaincode query")) (some (.str "")))
    | .respArray none =>
      pure (createReturn (some (.num 202)) (some (.str ""))
        (some (.str "response_payloads is null")) (some (.str "")))
    | .respArray (some (.errorInstance msg)) => handleErrorEntry msg
    | .respArray (some (.plainEntry response)) =>
      match response with
      | some rv =>
        match rv.payload with
        | some text => pure (respPathResult rv.status text)
        | none =>
          pure (createReturn (some (.num 202)) (some (.str ""))
            (some (.str "queryByChaincode - unknown or missing results in query")) (some (.str "")))
      | none =>
        pure (createReturn (some (.num 202)) (some (.str ""))
          (some (.str "queryByChaincode - unknown or missing results in query")) (some (.str "")))

/-- `queryChaincode` (part_000 lines 30-94): the outer `catch` (line 90,
binding `error`) converts every exception into a `202` `QueryResult`
carrying `error.toString()`. -/
def queryChaincode (env : QCEnv) : Except JsError QueryResult :=
  match queryChaincodeTry env with
  | .ok r => .ok r
  | .error e =>
    .ok (createReturn (some (.num 202)) (some (.str ""))
      (some (.str (jsErrToString e))) (some (.str (jsErrToString e))))

/- ## `getBlockByNumber` (part_000 lines 104-125) -/

/-- Values a ledger-inspection operation could hand its caller in the
untyped source: a `QueryResult`-shaped record, a domain object (the raw
block payload, opaque here) or a plain string. -/
inductive FacadeValue where
  | qres (q : QueryResult) : FacadeValue
  | blockVal (b : Json) : FacadeValue
  | strVal (s : String) : FacadeValue
deriving DecidableEq, Repr

def FacadeValue.isQueryResultShaped : FacadeValue → Bool
  | .qres _ => true
  | _ => false

/-- Environment of one `getBlockByNumber` call. -/
structure GBEnv where
  channelResult : Except JsError (Option Unit)
  queryBlockResult : Except JsError (Option Json)
  channelName : String

/-- The `try` block of `getBlockByNumber`: a missing channel is *thrown*
(line 110) rather than returned as a `QueryResult`. -/
def getBlockByNumberTry (env : GBEnv) : Except JsError FacadeValue := do
  let chan ← env.channelResult
  match chan with
  | none =>
    throw (.error ("Channel " ++ env.channelName ++ " was not defined in the connection profile"))
  | some _ => do
    let rp ← env.queryBlockResult
    match rp with
    | some b => pure (.blockVal b)
    | none => pure (.strVal "response_payload is null")

/-- `getBlockByNumber` (part_000 lines 104-125): the `catch` (binding
`error`) returns `error.toString()` as a plain string. -/
def getBlockByNumber (env : GBEnv) : Except JsError FacadeValue :=
  match getBlockByNumberTry env with
  | .ok v => .ok v
  | .error e => .ok (.strVal (jsErrToString e))

/- ## Session cache (`lib/utils/common.js`) -/

/-- A channel handle: the identity of the client it came from and the
channel name it was requested under. -/
structure ChannelVal where
  clientId : Nat
  name : String
deriving DecidableEq, Repr

/-- The process-wide singleton slots declared by common.js lines 17-18
(`global.CLIENT`, `global.CHANNEL`), plus an allocation counter giving
fresh identities to client handles built by `hfc.loadFromConfig` (each
call constructs a new object, so a rebuilt handle is distinct from every
previously allocated one). -/
structure GState where
  CLIENT : Option Nat
  CHANNEL : Option ChannelVal
  fresh : Nat

/-- Environment of a client build (common.js lines 37-58): process
defaults, outcomes of profile loading and credential-store initialization,
and whether `client.getUserContext(userName, true)` /
`client.getUserContext()` find a truthy user. -/
structure ClientEnv where
  envOrgName : String
  envUserName : String
  loadErr : Option JsError
  initCredErr : Option JsError
  userCtxFound : Bool
  defaultCtxFound : Bool

/-- Common.js lines 37-63: build a client.  `util` carries no `require`
line in the provided common.js; its `format` call is modelled as the Node
builtin, whose output for `format('User % was not found :', u)` appends
the extra argument: `"User % was not found : " ++ u`. -/
def buildClient (st : GState) (env : ClientEnv) (orgName userName : String) :
    Except JsError (Nat × GState) := do
  let userName2 := if userName = "" then env.envUserName else userName
  match env.loadErr with
  | some e => throw e
  | none => do
  match env.initCredErr with
  | some e => throw e
  | none => do
  if userName2 = "" then pure ()
  else if env.userCtxFound then pure ()
  else if env.defaultCtxFound then pure ()
  else throw (.error ("User % was not found : " ++ userName2))
  pure (st.fresh, { st with CLIENT := some st.fresh, fresh := st.fresh + 1 })

/-- `getClientForOrg` (common.js lines 29-64): return the cached singleton
unless `isRefresh` is truthy, otherwise build, cache and return a new
client. -/
def getClientForOrg (st : GState) (env : ClientEnv) (orgName userName : String)
    (isRefresh : Bool) : Except JsError (Nat × GState) :=
  match st.CLIENT, isRefresh with
  | some c, false => .ok (c, st)
  | _, _ => buildClient st env orgName userName

/-- Environment of `getChannel`: the client-build environment, the
`CHANNEL_NAME` process default, and `CLIENT.getChannel(name)` (`none`
models a falsy result for an unconfigured name). -/
structure ChanEnv where
  clientEnv : ClientEnv
  envChannelName : String
  chanLookup : String → Option Nat

/-- `getChannel` (common.js lines 72-89): return the cached singleton
channel when `isRefresh` is falsy and one exists — whatever arguments the
call carries; otherwise resolve a client if none is cached, look the
channel up by (defaulted) name, store it in the singleton slot and return
it. -/
def getChannel (st : GState) (env : ChanEnv) (orgName userName channelName : String)
    (isRefresh : Bool) : Except JsError (Option ChannelVal × GState) :=
  match st.CHANNEL, isRefresh with
  | some ch, false => .ok (some ch, st)
  | _, _ => do
    let channelName2 := if channelName = "" then env.envChannelName else channelName
    let (cid, st1) ←
      match st.CLIENT with
      | some c => pure (c, st)
      | none => getClientForOrg st env.clientEnv orgName userName false
    let chv := (env.chanLookup channelName2).map (fun i => ChannelVal.mk i channelName2)
    pure (chv, { st1 with CHANNEL := chv })

/- ## Block crawling (`crawlBlock`, part_000 lines 327-378) -/

/-- A transaction's channel header as read by lines 353-356. -/
structure ChannelHeader where
  timestamp : String
  channel_id : String
  tx_id : String
  typeString : String
deriving DecidableEq, Repr

/-- One chaincode action of a transaction: only
`payload.action.proposal_response_payload.extension.results.ns_rwset` is
read (line 358); the namespace read/write sets are opaque values here. -/
structure TxAction where
  ns_rwset : List Json
deriving DecidableEq, Repr

/-- One entry of the block's data section (`d` in the `forEach` of lines
351-363): its channel header and its action list (`actions[0]` absent is
the empty list). -/
structure TxEntry where
  channel_header : ChannelHeader
  actions : List TxAction
deriving DecidableEq, Repr

/-- A raw block as returned by `queryBlock`/`queryBlockByHash`.
`dataData` is `blockResult.data.data` (`none` models an absent/falsy
transaction-data section, line 340); `metadata` is
`blockResult.metadata.metadata`. -/
structure RawBlock where
  header : RawHeader
  dataData : Option (List TxEntry)
  metadata : List Json
deriving DecidableEq, Repr

/-- One crawled transaction record (lines 352-362). -/
structure TxRecord where
  timestamp : String
  channel_id : String
  tx_id : String
  tx_type : String
  ns_rwset : List Json
deriving DecidableEq, Repr

/-- The assembled header of lines 345-350. -/
structure CrawledHeader where
  number : Nat
  previous_hash : String
  data_hash : String
  block_hash : List Nat
deriving DecidableEq, Repr

/-- The block structure of lines 365-369. -/
structure CrawledBlock where
  header : CrawledHeader
  data : List TxRecord
  tx_code : Option Json
deriving DecidableEq, Repr

/-- What `crawlBlock`'s `try` block can produce: `null` (line 340 / 372),
the assembled block, or a string (the `catch`'s `error.toString()`,
line 376). -/
inductive CrawlOutcome where
  | nullResult : CrawlOutcome
  | blockResult (b : CrawledBlock) : CrawlOutcome
  | strResult (s : String) : CrawlOutcome
deriving DecidableEq, Repr

/-- Lines 352-362: one iteration of the `forEach`. -/
def crawlTx (d : TxEntry) : TxRecord :=
  { timestamp := d.channel_header.timestamp
    channel_id := d.channel_header.channel_id
    tx_id := d.channel_header.tx_id
    tx_type := d.channel_header.typeString
    ns_rwset :=
      match d.actions.head? with
      | some a => a.ns_rwset
      | none => [] }

/-- Lines 342-369: assemble the crawled block from a truthy data section. -/
def crawlAssemble (b : RawBlock) (txs : List TxEntry) : CrawledBlock :=
  { header :=
      { number := b.header.number
        previous_hash := b.header.previous_hash
        data_hash := b.header.data_hash
        block_hash := _generateBlockHash b.header }
    data := txs.map crawlTx
    tx_code := b.metadata.getLast? }

/-- The identifiers resolvable from the body of `crawlBlock`: its
parameters, the module-scope constants of part_000 (lines 8-11), the
class, `this`, and the globals `CLIENT`/`CHANNEL` that common.js declares
(lines 17-18).  `orgName`, `userName`, `channelName` and `error` are not
among them. -/
def crawlBlockScopeNames : List String :=
  ["util", "logger", "common", "QueryService", "this",
   "blockNumberOrHash", "option", "CLIENT", "CHANNEL"]

/-- Strict-mode identifier resolution: an identifier outside every
enclosing scope (`extra` lists additional local bindings) raises
`ReferenceError`. -/
def resolveIdent (extra : List String) (x : String) : Except JsError Unit :=
  if x ∈ crawlBlockScopeNames ++ extra then .ok () else .error (.referenceError x)

/-- Network outcomes available to `crawlBlock`. -/
structure CrawlNet where
  getChannelRes : Except JsError Unit
  queryBlockRes : Except JsError (Option RawBlock)
  queryBlockByHashRes : Except JsError (Option RawBlock)

/-- The `try` block of `crawlBlock` (lines 328-373).  Its first statement
(line 329) evaluates the call arguments `orgName`, `userName`,
`channelName`, none of which is declared in any enclosing scope, so it
raises before any network call; the remainder models lines 331-373 as
written. -/
def crawlBlockTry (net : CrawlNet) (blockNumberOrHash : String) (opt : String) :
    Except JsError CrawlOutcome := do
  let _ ← resolveIdent [] "orgName"
  let _ ← resolveIdent [] "userName"
  let _ ← resolveIdent [] "channelName"
  let _ ← net.getChannelRes
  let blockResult ← if opt = "byNumber" then net.queryBlockRes else net.queryBlockByHashRes
  match blockResult with
  | none => pure .nullResult
  | some b =>
    match b.dataData with
    | none => pure .nullResult
    | some txs => pure (.blockResult (crawlAssemble b txs))

/-- The `catch` clause of `crawlBlock` (lines 374-377) binds `err` but its
body evaluates `error` (lines 375-376), which is unresolvable there, so
the handler itself raises `ReferenceError: error is not defined`; the
string return on line 376 would be `error.toString()` if `error`
resolved. -/
def crawlBlockCatch (caught : JsError) : Except JsError CrawlOutcome :=
  match resolveIdent ["err"] "error" with
  | .error e => .error e
  | .ok _ => .ok (.strResult (jsErrToString caught))

/-- `crawlBlock` (lines 327-378): the `try` body guarded by the broken
`catch`. -/
def crawlBlock (net : CrawlNet) (blockNumberOrHash : String) (opt : String) :
    Except JsError CrawlOutcome :=
  match crawlBlockTry net blockNumberOrHash opt with
  | .ok v => .ok v
  | .error e => crawlBlockCatch e

/- ## Theorems: big-endian and DER round-trip lemmas -/

theorem beVal_append_one (xs : List Nat) (b : Nat) :
    beVal (xs ++ [b]) = beVal xs * 256 + b := by
  simp [beVal, List.foldl_append]

theorem beVal_natToBE (n : Nat) : beVal (natToBE n) = n := by
  induction n using Nat.strong_induction_on with
  | _ n ih =>
    rw [natToBE]
    by_cases h : n = 0
    · simp [h, beVal]
    · rw [if_neg h, beVal_append_one,
        ih (n / 256) (Nat.div_lt_self (Nat.pos_of_ne_zero h) (by omega))]
      omega

theorem natToBE_ne_nil {n : Nat} (h : n ≠ 0) : natToBE n ≠ [] := by
  rw [natToBE]
  simp [h]

theorem beVal_cons_zero (bs : List Nat) : beVal (0 :: bs) = beVal bs := by
  simp [beVal]

theorem readLen_lenEncode (n : Nat) (rest : List Nat) :
    readLen (lenEncode n ++ rest) = some (n, rest) := by
  by_cases h : n < 128
  · simp [lenEncode, h, readLen]
  · have hne : natToBE n ≠ [] := natToBE_ne_nil (fun h0 => h (by omega))
    have hpos : 0 < (natToBE n).length := List.length_pos.mpr hne
    simp only [lenEncode, if_neg h, List.cons_append, readLen]
    rw [if_neg (by omega)]
    have h128 : 128 + (natToBE n).length - 128 = (natToBE n).length := by omega
    rw [h128, if_neg (by omega), if_pos (by simp)]
    rw [List.take_left, List.drop_left, beVal_natToBE]

theorem readTLV_derTLV (tag : Nat) (content rest : List Nat) :
    readTLV tag (derTLV tag content ++ rest) = some (content, rest) := by
  simp only [derTLV, List.cons_append, List.append_assoc, readTLV, if_pos rfl]
  rw [readLen_lenEncode]
  have hle : content.length ≤ (content ++ rest).length := by simp
  simp [hle, List.take_left, List.drop_left]

theorem decodeDerInt_derIntBody (n : Nat) : decodeDerInt (derIntBody n) = some n := by
  by_cases h0 : natToBE n = []
  · have hn : n = 0 := by
      by_contra hn
      exact natToBE_ne_nil hn h0
    subst hn
    rw [derIntBody, if_pos h0]
    decide
  · cases hx : natToBE n with
    | nil => exact absurd hx h0
    | cons b tl =>
      have hcons : derIntBody n = if 128 ≤ b then 0 :: b :: tl else b :: tl := by
        simp [derIntBody, hx]
      rw [hcons]
      by_cases h1 : 128 ≤ b
      · rw [if_pos h1]
        have hd : decodeDerInt (0 :: b :: tl) = some (beVal (0 :: b :: tl)) := by
          simp [decodeDerInt]
        rw [hd, beVal_cons_zero, ← hx, beVal_natToBE]
      · rw [if_neg h1]
        have hb : b < 128 := by omega
        have hd : decodeDerInt (b :: tl) = some (beVal (b :: tl)) := by
          simp [decodeDerInt, hb]
        rw [hd, ← hx, beVal_natToBE]

theorem decodeHeaderDer_derSeq (n : Nat) (p d : List Nat) :
    decodeHeaderDer (derSeq (derInt n ++ derOctStr p ++ derOctStr d)) = some (n, p, d) := by
  have h1 : readTLV 48 (derSeq (derInt n ++ derOctStr p ++ derOctStr d)) =
      some (derInt n ++ derOctStr p ++ derOctStr d, []) := by
    have hx := readTLV_derTLV 48 (derInt n ++ derOctStr p ++ derOctStr d) []
    simpa [derSeq] using hx
  have h2 : readTLV 2 (derInt n ++ derOctStr p ++ derOctStr d) =
      some (derIntBody n, derTLV 4 p ++ derTLV 4 d) := by
    have hx := readTLV_derTLV 2 (derIntBody n) (derTLV 4 p ++ derTLV 4 d)
    rw [show derInt n ++ derOctStr p ++ derOctStr d =
        derTLV 2 (derIntBody n) ++ (derTLV 4 p ++ derTLV 4 d) by
      simp [derInt, derOctStr, List.append_assoc]]
    exact hx
  have h3 : readTLV 4 (derTLV 4 p ++ derTLV 4 d) = some (p, derTLV 4 d) :=
    readTLV_derTLV 4 p (derTLV 4 d)
  have h4 : readTLV 4 (derTLV 4 d) = some (d, []) := by
    have hx := readTLV_derTLV 4 d []
    simpa using hx
  simp only [List.append_assoc] at h1 h2
  simp [decodeHeaderDer, h1, h2, h3, h4, decodeDerInt_derIntBody]

/- ## Claim theorems -/

/-- C1: for every block header, `_generateBlockHash` equals SHA-256 of the
ASN.1 DER encoding of the sequence (Number as integer, PreviousHash as
octet string, DataHash as octet string) in exactly that field order, and
is a pure function of `(number, previousHash, dataHash)`: two calls on
identical header fields yield identical hash bytes. -/
theorem generateBlockHash_sha256_der_deterministic (h1 h2 : RawHeader)
    (hn : h1.number = h2.number) (hp : h1.previous_hash = h2.previous_hash)
    (hd : h1.data_hash = h2.data_hash) :
    _generateBlockHash h1 =
      sha256 (derSeq (derInt h1.number ++ derOctStr (hexDecode h1.previous_hash) ++
        derOctStr (hexDecode h1.data_hash)))
    ∧ _generateBlockHash h1 = _generateBlockHash h2 := by
  constructor
  · rfl
  · cases h1
    cases h2
    simp only at hn hp hd
    simp [hn, hp, hd]

/-- Witness for C1 at the concrete header `(5, "aa", "bb")`. -/
theorem generateBlockHash_sha256_der_deterministic_witness :
    _generateBlockHash ⟨5, "aa", "bb"⟩ =
      sha256 (derSeq (derInt (RawHeader.mk 5 "aa" "bb").number ++
        derOctStr (hexDecode (RawHeader.mk 5 "aa" "bb").previous_hash) ++
        derOctStr (hexDecode (RawHeader.mk 5 "aa" "bb").data_hash)))
    ∧ _generateBlockHash ⟨5, "aa", "bb"⟩ = _generateBlockHash ⟨5, "aa", "bb"⟩ :=
  generateBlockHash_sha256_der_deterministic ⟨5, "aa", "bb"⟩ ⟨5, "aa", "bb"⟩ rfl rfl rfl

/-- C6: DER-encoding a header triple with the encoding used by
`_generateBlockHash` and decoding the bytes with a standard DER decoder
yields the same `(number, previousHash, dataHash)` triple — both for
arbitrary triples and for the encoding of any raw header. -/
theorem headerAsnEncode_roundTrip (n : Nat) (p d : List Nat) (h : RawHeader) :
    decodeHeaderDer (derSeq (derInt n ++ derOctStr p ++ derOctStr d)) = some (n, p, d)
    ∧ decodeHeaderDer (headerAsnEncode h) =
        some (h.number, hexDecode h.previous_hash, hexDecode h.data_hash) :=
  ⟨decodeHeaderDer_derSeq n p d, decodeHeaderDer_derSeq h.number _ _⟩

/-- `Except` monad reductions used to discharge the session-cache goals. -/
theorem pure_eq_okE {a : Type} {e : Type} (x : a) : (pure x : Except e a) = Except.ok x := rfl

theorem map_throw_eqE {a b : Type} {e : Type} (f : a -> b) (ex : e) :
    (f <$> (throw ex : Except e a)) = Except.error ex := rfl

theorem ok_bind_eqE {a b : Type} {e : Type} (x : a) (k : a -> Except e b) :
    (Except.ok x >>= k) = k x := rfl

/-- C7: with a cached client and `forceRefresh` false, `getClientForOrg`
returns the identical cached handle with the state unchanged (so a second
identical call returns the same handle again, with no rebuild); with
`forceRefresh` true and a successful build it returns a handle distinct
from the cached one, which replaces the cache. -/
theorem getClientForOrg_reuse_and_refresh (st : GState) (env : ClientEnv)
    (o u : String) (c : Nat) (hc : st.CLIENT = some c) (hwf : c < st.fresh)
    (hload : env.loadErr = none) (hinit : env.initCredErr = none)
    (huser : env.userCtxFound = true) :
    getClientForOrg st env o u false = .ok (c, st)
    ∧ ∃ c2 st2, getClientForOrg st env o u true = .ok (c2, st2)
        ∧ c2 ≠ c ∧ st2.CLIENT = some c2 := by
  obtain ⟨cl, chn, fr⟩ := st
  obtain ⟨eo, eu, lerr, ierr, uf, df⟩ := env
  try dsimp only at hc
  try dsimp only at hwf
  try dsimp only at hload
  try dsimp only at hinit
  try dsimp only at huser
  subst hc hload hinit huser
  refine ⟨rfl, fr, ⟨some fr, chn, fr + 1⟩, ?_, by omega, rfl⟩
  show buildClient ⟨some c, chn, fr⟩ ⟨eo, eu, none, none, true, df⟩ o u = _
  by_cases hu : (if u = "" then eu else u) = "" <;>
    simp [buildClient, hu, pure_eq_okE, ok_bind_eqE]

/-- Witness for C7 at a concrete cached state. -/
theorem getClientForOrg_reuse_and_refresh_witness :
    getClientForOrg ⟨some 0, none, 1⟩ ⟨"org1", "admin", none, none, true, false⟩
        "org1" "alice" false = .ok (0, ⟨some 0, none, 1⟩)
    ∧ ∃ c2 st2, getClientForOrg ⟨some 0, none, 1⟩ ⟨"org1", "admin", none, none, true, false⟩
        "org1" "alice" true = .ok (c2, st2) ∧ c2 ≠ 0 ∧ st2.CLIENT = some c2 :=
  getClientForOrg_reuse_and_refresh ⟨some 0, none, 1⟩ ⟨"org1", "admin", none, none, true, false⟩
    "org1" "alice" 0 rfl (by decide) rfl rfl rfl

/-- C9: when no client is cached and the named user's context is not
found, `getClientForOrg` falls back to a previously persisted default
user context when one exists; when neither exists, the call fails with
the identity-not-found error naming the missing user. -/
theorem getClientForOrg_identity_fallback (st : GState) (env : ClientEnv)
    (o u : String) (hu : u ≠ "") (hcl : st.CLIENT = none)
    (hload : env.loadErr = none) (hinit : env.initCredErr = none)
    (hctx : env.userCtxFound = false) :
    (env.defaultCtxFound = true →
      getClientForOrg st env o u false =
        .ok (st.fresh, { st with CLIENT := some st.fresh, fresh := st.fresh + 1 }))
    ∧ (env.defaultCtxFound = false →
      getClientForOrg st env o u false =
        .error (.error ("User % was not found : " ++ u))) := by
  obtain ⟨cl, chn, fr⟩ := st
  obtain ⟨eo, eu, lerr, ierr, uf, df⟩ := env
  try dsimp only at hcl
  try dsimp only at hload
  try dsimp only at hinit
  try dsimp only at hctx
  subst hcl hload hinit hctx
  constructor
  · intro hdef
    try dsimp only at hdef
    subst hdef
    show buildClient ⟨none, chn, fr⟩ ⟨eo, eu, none, none, false, true⟩ o u = _
    simp [buildClient, hu, pure_eq_okE, ok_bind_eqE]
  · intro hdef
    try dsimp only at hdef
    subst hdef
    show buildClient ⟨none, chn, fr⟩ ⟨eo, eu, none, none, false, false⟩ o u = _
    simp [buildClient, hu, map_throw_eqE, ok_bind_eqE]

/-- Witness for C9 at a concrete environment (both branches). -/
theorem getClientForOrg_identity_fallback_witness :
    (getClientForOrg ⟨none, none, 0⟩ ⟨"org1", "", none, none, false, true⟩ "org1" "ghost" false =
      .ok (0, ⟨some 0, none, 1⟩))
    ∧ (getClientForOrg ⟨none, none, 0⟩ ⟨"org1", "", none, none, false, false⟩ "org1" "ghost" false =
      .error (.error ("User % was not found : " ++ "ghost"))) :=
  ⟨(getClientForOrg_identity_fallback ⟨none, none, 0⟩ ⟨"org1", "", none, none, false, true⟩
      "org1" "ghost" (by decide) rfl rfl rfl rfl).1 rfl,
   (getClientForOrg_identity_fallback ⟨none, none, 0⟩ ⟨"org1", "", none, none, false, false⟩
      "org1" "ghost" (by decide) rfl rfl rfl rfl).2 rfl⟩

/-- C10: whenever some channel handle is cached and `isRefresh` is falsy,
`getChannel` returns the cached handle and leaves the state unchanged,
whatever `orgName`, `userName` and `channelName` the call carries — in
particular for a channel name different from the one the cached handle
was created under. -/
theorem getChannel_cached_ignores_name (st : GState) (env : ChanEnv)
    (o u cn : String) (ch : ChannelVal) (hch : st.CHANNEL = some ch) :
    getChannel st env o u cn false = .ok (some ch, st) := by
  obtain ⟨cl, chn, fr⟩ := st
  dsimp only at hch
  subst hch
  rfl

/-- Witness for C10: the cached handle was created under name `"ch1"` but
a request for `"other"` still returns it. -/
theorem getChannel_cached_ignores_name_witness :
    getChannel ⟨some 0, some ⟨0, "ch1"⟩, 1⟩
      ⟨⟨"org1", "admin", none, none, true, true⟩, "", fun _ => none⟩
      "org2" "bob" "other" false = .ok (some ⟨0, "ch1"⟩, ⟨some 0, some ⟨0, "ch1"⟩, 1⟩) :=
  getChannel_cached_ignores_name _ _ "org2" "bob" "other" ⟨0, "ch1"⟩ rfl

theorem error_bind_eqE {a b : Type} {e : Type} (ex : e) (k : a -> Except e b) :
    (Except.error ex >>= k) = Except.error ex := rfl

/-- Every result the error-entry normalization hands back has an empty
payload (helper for the amended C4). -/
theorem handleErrorEntry_payload (msg : String) (v : QueryResult)
    (h : handleErrorEntry msg = .ok v) : v.payload = some (Json.str "") := by
  unfold handleErrorEntry at h
  cases ht : handleErrorEntryTry msg with
  | error e => rw [ht] at h; exact absurd h (by simp)
  | ok w =>
    rw [ht] at h
    simp only [Except.ok.injEq] at h
    subst h
    unfold handleErrorEntryTry at ht
    cases hp : Json.parse msg with
    | none => rw [hp] at ht; exact absurd ht (by simp [throw, throwThe, MonadExceptOf.throw])
    | some cv =>
      simp only [hp] at ht
      cases hs : jsMember cv "status" with
      | error e => simp [hs, error_bind_eqE] at ht
      | ok st =>
        simp only [hs, ok_bind_eqE] at ht
        cases hm : jsMember cv "msg" with
        | error e => simp [hm, error_bind_eqE] at ht
        | ok ms =>
          simp only [hm, ok_bind_eqE, pure_eq_okE, Except.ok.injEq] at ht
          subst ht
          rfl

/-- C4 (amended): every `QueryResult` produced by `queryChaincode` either
has the empty-string payload (all failure and absent-result paths), or was
produced by the response-payload path, where the payload is the decoded
application data, message and detail are `"Success"`, and the statusCode
is copied verbatim from the peer's `response.status` — which need not be
200. -/
theorem queryChaincode_payload_empty_off_success (env : QCEnv) (r : QueryResult)
    (h : queryChaincode env = .ok r) :
    r.payload = some (Json.str "")
    ∨ ∃ rv text, env.proposalResult = .ok (.respArray (some (.plainEntry (some rv))))
        ∧ rv.payload = some text ∧ r = respPathResult rv.status text := by
  obtain ⟨cr, chr, pr, cn⟩ := env
  cases htry : queryChaincodeTry ⟨cr, chr, pr, cn⟩ with
  | error e =>
    simp only [queryChaincode, htry, Except.ok.injEq] at h
    subst h
    exact Or.inl rfl
  | ok v =>
    simp only [queryChaincode, htry, Except.ok.injEq] at h
    subst h
    unfold queryChaincodeTry at htry
    cases cr with
    | error e => simp [error_bind_eqE] at htry
    | ok cu =>
      cases cu
      simp only [ok_bind_eqE] at htry
      cases chr with
      | error e => simp [error_bind_eqE] at htry
      | ok chan =>
        simp only [ok_bind_eqE] at htry
        cases chan with
        | none =>
          simp only [pure_eq_okE, Except.ok.injEq] at htry
          subst htry
          exact Or.inl rfl
        | some cu2 =>
          cases pr with
          | error e => simp [error_bind_eqE] at htry
          | ok responses =>
            simp only [ok_bind_eqE] at htry
            cases responses with
            | notArray =>
              simp only [pure_eq_okE, Except.ok.injEq] at htry
              subst htry
              exact Or.inl rfl
            | respArray first =>
              cases first with
              | none =>
                simp only [pure_eq_okE, Except.ok.injEq] at htry
                subst htry
                exact Or.inl rfl
              | some entry =>
                cases entry with
                | errorInstance msg =>
                  exact Or.inl (handleErrorEntry_payload msg v htry)
                | plainEntry response =>
                  cases response with
                  | none =>
                    simp only [pure_eq_okE, Except.ok.injEq] at htry
                    subst htry
                    exact Or.inl rfl
                  | some rv =>
                    obtain ⟨rst, rpd⟩ := rv
                    cases rpd with
                    | none =>
                      simp only [pure_eq_okE, Except.ok.injEq] at htry
                      subst htry
                      exact Or.inl rfl
                    | some text =>
                      simp only [pure_eq_okE, Except.ok.injEq] at htry
                      subst htry
                      exact Or.inr ⟨⟨rst, some text⟩, text, rfl, rfl, rfl⟩

/-- A proposal environment whose first endorser entry is a non-`Error`
response with `status` 500 and a (non-JSON) payload `"abc"`. -/
def qcEnvStatus500 : QCEnv :=
  ⟨.ok (), .ok (some ()),
   .ok (.respArray (some (.plainEntry (some ⟨some (.num 500), some "abc"⟩)))), "mychannel"⟩

/-- C4 (counterexample): on a peer response with `status` 500 and a
payload, `queryChaincode` returns `statusCode` 500 together with a
non-empty payload and the message `"Success"` — so a statusCode other
than 200 does not imply an empty payload, refuting the claimed
invariant. -/
theorem queryChaincode_invariant_cex :
    queryChaincode qcEnvStatus500 =
      .ok (createReturn (some (.num 500)) (some (.str "abc"))
        (some (.str "Success")) (some (.str "Success")))
    ∧ some (Json.num 500) ≠ some (Json.num 200)
    ∧ some (Json.str "abc") ≠ some (Json.str "")
    ∧ some (Json.str "abc") ≠ (none : Option Json) := by
  refine ⟨rfl, by decide, by decide, by decide⟩

/-- Witness for the amended C4 at a concrete success-path environment. -/
theorem queryChaincode_payload_empty_off_success_witness :
    queryChaincode qcEnvStatus500 =
      .ok (createReturn (some (.num 500)) (some (.str "abc"))
        (some (.str "Success")) (some (.str "Success")))
    ∧ ((createReturn (some (.num 500)) (some (.str "abc"))
          (some (.str "Success")) (some (.str "Success"))).payload = some (Json.str "")
      ∨ ∃ rv text, qcEnvStatus500.proposalResult =
            .ok (.respArray (some (.plainEntry (some rv))))
          ∧ rv.payload = some text
          ∧ createReturn (some (.num 500)) (some (.str "abc"))
              (some (.str "Success")) (some (.str "Success")) = respPathResult rv.status text) :=
  ⟨rfl, queryChaincode_payload_empty_off_success qcEnvStatus500 _ rfl⟩

/-- A proposal environment whose first endorser entry is an `Error` whose
message `"boom"` is not JSON. -/
def qcEnvBoom : QCEnv :=
  ⟨.ok (), .ok (some ()), .ok (.respArray (some (.errorInstance "boom"))), "mychannel"⟩

/-- C5: when the nested JSON parse of an endorser error message fails, the
inner `catch` (part_000 line 68-71) evaluates `convertObj`, which is
scoped to the inner `try` block, so normalization raises
`ReferenceError: convertObj is not defined`; the outer `catch` of
`queryChaincode` then produces `QueryResult(202, "", that ReferenceError
text, …)` — not `QueryResult(202, empty, rawErrorText, rawErrorText)`:
the raw error text `"boom"` is lost. -/
theorem queryChaincode_nested_parse_failure_eval :
    handleErrorEntry "boom" = .error (.referenceError "convertObj")
    ∧ queryChaincode qcEnvBoom =
      .ok (createReturn (some (.num 202)) (some (.str ""))
        (some (.str "ReferenceError: convertObj is not defined"))
        (some (.str "ReferenceError: convertObj is not defined")))
    ∧ Json.str "ReferenceError: convertObj is not defined" ≠ Json.str "boom" := by
  refine ⟨rfl, rfl, by decide⟩

/-- `queryChaincode` itself never lets an exception escape: the outer
`catch` (binding `error`, line 90) is sound, so the call always resolves
to some `QueryResult`. -/
theorem queryChaincode_never_throws (env : QCEnv) : ∃ r, queryChaincode env = .ok r := by
  cases h : queryChaincodeTry env with
  | ok v => exact ⟨v, by simp only [queryChaincode, h]⟩
  | error e =>
    exact ⟨createReturn (some (.num 202)) (some (.str "")) (some (.str (jsErrToString e)))
      (some (.str (jsErrToString e))), by simp only [queryChaincode, h]⟩

/-- The channel-missing environments for C8. -/
def gbEnvMissing : GBEnv := ⟨.ok none, .ok none, "mychannel"⟩

/-- C8 (counterexample): on a missing channel, `getBlockByNumber` throws
(line 110) and its `catch` returns `error.toString()` — a plain string,
not a `QueryResult`-shaped failure with statusCode 202. -/
theorem getBlockByNumber_channel_missing_cex :
    getBlockByNumber gbEnvMissing =
      .ok (.strVal "Error: Channel mychannel was not defined in the connection profile")
    ∧ FacadeValue.isQueryResultShaped
        (.strVal "Error: Channel mychannel was not defined in the connection profile") = false
    ∧ ∀ q : QueryResult,
        FacadeValue.strVal "Error: Channel mychannel was not defined in the connection profile"
          ≠ FacadeValue.qres q := by
  refine ⟨rfl, rfl, fun q => by simp⟩

/-- C8 (amended): on a channel name that resolves to a missing/undefined
handle, neither operation raises: `queryChaincode` returns the
`QueryResult`-shaped 202 failure with a descriptive message, while
`getBlockByNumber` returns the descriptive message as a plain error
string (`"Error: Channel … was not defined in the connection profile"`). -/
theorem channel_missing_never_raises (envQ : QCEnv) (envB : GBEnv)
    (hqc : envQ.clientResult = .ok ()) (hqch : envQ.channelResult = .ok none)
    (hbch : envB.channelResult = .ok none) :
    queryChaincode envQ =
      .ok (createReturn (some (.num 202)) (some (.str ""))
        (some (.str ("Channel " ++ envQ.channelName ++ " was not defined in the connection profile")))
        (some (.str ("Channel " ++ envQ.channelName ++ " was not defined in the connection profile"))))
    ∧ getBlockByNumber envB =
      .ok (.strVal ("Error: Channel " ++ envB.channelName ++
        " was not defined in the connection profile")) := by
  obtain ⟨cr, chr, pr, cn⟩ := envQ
  obtain ⟨bchr, bqr, bcn⟩ := envB
  try dsimp only at hqc
  try dsimp only at hqch
  try dsimp only at hbch
  subst hqc hqch hbch
  constructor
  · simp [queryChaincode, queryChaincodeTry, ok_bind_eqE, pure_eq_okE]
  · simp [getBlockByNumber, getBlockByNumberTry, ok_bind_eqE, pure_eq_okE, jsErrToString]
    rw [← String.append_assoc, ← String.append_assoc]
    rfl

/-- Witness for the amended C8 at concrete environments. -/
theorem channel_missing_never_raises_witness :
    queryChaincode ⟨.ok (), .ok none, .ok .notArray, "mychannel"⟩ =
      .ok (createReturn (some (.num 202)) (some (.str ""))
        (some (.str ("Channel " ++ "mychannel" ++ " was not defined in the connection profile")))
        (some (.str ("Channel " ++ "mychannel" ++ " was not defined in the connection profile"))))
    ∧ getBlockByNumber gbEnvMissing =
      .ok (.strVal ("Error: Channel " ++ "mychannel" ++
        " was not defined in the connection profile")) :=
  channel_missing_never_raises ⟨.ok (), .ok none, .ok .notArray, "mychannel"⟩
    gbEnvMissing rfl rfl rfl

/- ## Crawl theorems -/

/-- The per-entry crawl logic of lines 351-363 maps the `k` entries of the
data section to exactly `k` records, in order (the order the intended
crawl would emit). -/
theorem crawlAssemble_complete (b : RawBlock) (txs : List TxEntry) :
    (crawlAssemble b txs).data = txs.map crawlTx
    ∧ (crawlAssemble b txs).data.length = txs.length := by
  refine ⟨rfl, ?_⟩
  simp [crawlAssemble]

/-- An entry with no chaincode action (`actions[0]` absent) yields a
record with an empty `ns_rwset`, not an omitted record. -/
theorem crawlTx_no_action_empty (d : TxEntry) (h : d.actions = []) :
    (crawlTx d).ns_rwset = [] := by
  simp [crawlTx, h]

/-- C3: for every environment and every pair of arguments, `crawlBlock`
propagates an exception to its caller.  The `try` body raises at line 329
(`orgName` is not defined in any enclosing scope), the `catch` clause
binds `err` but evaluates `error` (lines 375-376), and that
`ReferenceError: error is not defined` escapes `crawlBlock` — no
string-form error result is ever returned. -/
theorem crawlBlock_exception_escapes (net : CrawlNet) (b o : String) :
    crawlBlock net b o = .error (.referenceError "error") := rfl

/-- A one-transaction raw block and a network that returns it. -/
def blockOneTx : RawBlock :=
  ⟨⟨5, "aa", "bb"⟩,
   some [⟨⟨"2020-01-01T00:00:00Z", "mychannel", "tx1", "ENDORSER_TRANSACTION"⟩, []⟩],
   [Json.num 0]⟩

def crawlNetOneTx : CrawlNet := ⟨.ok (), .ok (some blockOneTx), .ok none⟩

/-- C2: evaluated on a block whose data section has one transaction entry,
`crawlBlock` returns no record list at all: the `try` body raises
`ReferenceError: orgName is not defined` before the block is even
fetched, and the broken `catch` turns that into an escaping
`ReferenceError: error is not defined` — although the (unreachable)
assembly of lines 351-363 would have produced exactly one record. -/
theorem crawlBlock_returns_no_records_eval :
    crawlBlockTry crawlNetOneTx "3" "byNumber" = .error (.referenceError "orgName")
    ∧ crawlBlock crawlNetOneTx "3" "byNumber" = .error (.referenceError "error")
    ∧ (crawlAssemble blockOneTx
        [⟨⟨"2020-01-01T00:00:00Z", "mychannel", "tx1", "ENDORSER_TRANSACTION"⟩, []⟩]).data.length
      = 1 :=
  ⟨rfl, rfl, rfl⟩
